import Mathlib

set_option autoImplicit false

/-!
Shallow embedding of `firmware/application/file.cpp` (PortaPack firmware).

The FatFs driver (`f_open`, `f_read`, `f_write`, `f_lseek`, `f_tell`,
`f_sync`, `f_puts`, `f_findfirst`, `f_findnext`, `f_getfree`) is an external
collaborator: each embedded operation takes the driver-call outcomes as
explicit parameters (an oracle record) and computes the new handle state and
the returned value, exactly following the control flow of the C++ code.
Machine integers are modelled as `Nat`/`Int`; where overflow matters — the
free-space byte computation in `space`, performed in the driver's 32-bit
unsigned `DWORD` type — the arithmetic is reduced modulo `2 ^ 32`
explicitly.
-/

namespace PortaPack

/-- FatFs `FRESULT` success code (external driver header). -/
def FR_OK : Nat := 0

/-- Extension code defined in file.cpp: `#define FR_DISK_FULL (0x100)`. -/
def FR_DISK_FULL : Nat := 0x100

/-- Extension code defined in file.cpp: `#define FR_EOF (0x101)`. -/
def FR_EOF : Nat := 0x101

/-- Extension code defined in file.cpp: `#define FR_BAD_SEEK (0x102)`. -/
def FR_BAD_SEEK : Nat := 0x102

/-- FatFs open flag `FA_READ` (external driver header `ff.h`). -/
def FA_READ : Nat := 0x01

/-- FatFs open flag `FA_WRITE` (external driver header `ff.h`). -/
def FA_WRITE : Nat := 0x02

/-- FatFs open flag `FA_CREATE_ALWAYS` (external driver header `ff.h`). -/
def FA_CREATE_ALWAYS : Nat := 0x08

/-- FatFs open flag `FA_OPEN_ALWAYS` (external driver header `ff.h`). -/
def FA_OPEN_ALWAYS : Nat := 0x10

/-- FatFs directory attribute bit `AM_DIR` (external driver header `ff.h`). -/
def AM_DIR : Nat := 0x10

/-- Modelled from the spec: the `openmode` flag set of `File` is declared in
`file.hpp`, which is not part of the sources here.  Per the spec it is "a set
of independent flags: `in` (enable read), `out` (enable write), `trunc`
(create, discarding any existing content), `ate` (open existing-or-create,
and position at end-of-file)"; each field below is one of those independent
flags (`in` is a Lean keyword, so the fields carry an `is_` prefix here). -/
structure OpenMode where
  is_in : Bool
  is_out : Bool
  is_trunc : Bool
  is_ate : Bool
deriving DecidableEq

/-- State of a `File` handle: the sticky `err` field (`FIL::err` extended
with the codes above) and whether the underlying descriptor is still open
(`f_close` has not been called on it). -/
structure FileState where
  err : Nat
  opened : Bool
deriving DecidableEq

namespace File

/-- The `fatfs_mode` accumulation in the `File::File` constructor
(file.cpp lines 37-49): each requested open-mode flag ORs one FatFs flag
into the driver mode byte. -/
def fatfs_mode_of (mode : OpenMode) : Nat :=
  let m0 : Nat := 0
  let m1 := if mode.is_in then m0 ||| FA_READ else m0
  let m2 := if mode.is_out then m1 ||| FA_WRITE else m1
  let m3 := if mode.is_trunc then m2 ||| FA_CREATE_ALWAYS else m2
  if mode.is_ate then m3 ||| FA_OPEN_ALWAYS else m3

/-- Driver-call outcomes consumed by the `File::File` constructor:
the `f_open` result, the file size `f_size(&f)` observed after a successful
open, and the `f_lseek` result as a function of the requested position
(the constructor seeks to `f_size(&f)` when `ate` is set). -/
structure OpenDriver where
  open_result : Nat
  size : Nat
  lseek : Nat → Nat

/-- The `File::File` constructor body (file.cpp lines 32-60): store the
`f_open` result in `err`; when it is `FR_OK` and `ate` was requested,
seek to `f_size(&f)`, and on seek failure close the descriptor. -/
def construct (mode : OpenMode) (d : OpenDriver) : FileState :=
  if d.open_result = FR_OK then
    if mode.is_ate then
      let e2 := d.lseek d.size
      if e2 ≠ FR_OK then { err := e2, opened := false }
      else { err := e2, opened := true }
    else { err := FR_OK, opened := true }
  else { err := d.open_result, opened := false }

/-- `File::read` (file.cpp lines 66-77).  Parameters beyond the state: the
`f_read` result code, the `bytes_read` count the driver produced, and the
requested `bytes_to_read`.  Returns the new state and the boolean result. -/
def read (s : FileState) (read_result : Nat) (bytes_read : Nat)
    (bytes_to_read : Nat) : FileState × Bool :=
  if s.err ≠ FR_OK then (s, false)
  else
    let e := if bytes_read ≠ bytes_to_read then FR_EOF else read_result
    ({ s with err := e }, e == FR_OK)

/-- `File::write` (file.cpp lines 79-90), mirror of `read` with
`FR_DISK_FULL` on a short write. -/
def write (s : FileState) (write_result : Nat) (bytes_written : Nat)
    (bytes_to_write : Nat) : FileState × Bool :=
  if s.err ≠ FR_OK then (s, false)
  else
    let e := if bytes_written ≠ bytes_to_write then FR_DISK_FULL else write_result
    ({ s with err := e }, e == FR_OK)

/-- Driver-call outcomes consumed by `File::seek`: `f_tell(&f)` before the
seek, the `f_lseek` result, and `f_tell(&f)` re-read after the seek. -/
structure SeekDriver where
  old_position : Nat
  lseek_result : Nat
  tell_after : Nat

/-- `File::seek` (file.cpp lines 92-107): no-op returning `false` (which is
`0` in the `uint64_t` return type) when the sticky error is set; otherwise
record the old position, perform the seek (closing the descriptor on driver
failure), then re-read the position and on mismatch set `FR_BAD_SEEK` and
close; the old position is returned in every non-short-circuit case. -/
def seek (s : FileState) (d : SeekDriver) (new_position : Nat) :
    FileState × Nat :=
  if s.err ≠ FR_OK then (s, 0)
  else
    let s1 : FileState :=
      if d.lseek_result ≠ FR_OK then { err := d.lseek_result, opened := false }
      else { err := d.lseek_result, opened := s.opened }
    let s2 : FileState :=
      if d.tell_after ≠ new_position then { err := FR_BAD_SEEK, opened := false }
      else s1
    (s2, d.old_position)

/-- `File::puts` (file.cpp lines 109-115): no sticky-error gate; the
`f_puts` result (an `int`, negative on transport failure) is compared with
the string length, a mismatch sets `FR_DISK_FULL`, and the boolean result is
`result >= 0`. -/
def puts (s : FileState) (put_result : Int) (len : Nat) : FileState × Bool :=
  let s1 := if put_result ≠ (len : Int) then { s with err := FR_DISK_FULL } else s
  (s1, decide (0 ≤ put_result))

/-- `File::sync` (file.cpp lines 117-124). -/
def sync (s : FileState) (sync_result : Nat) : FileState × Bool :=
  if s.err ≠ FR_OK then (s, false)
  else ({ s with err := sync_result }, sync_result == FR_OK)

end File

/-- One entry yielded by the driver's `f_findfirst`/`f_findnext` search:
the entry name (`path()` of the C++ iterator) and its FatFs attribute
byte (`status()`). -/
structure Entry where
  path : String
  attr : Nat
deriving DecidableEq

/-- `std::filesystem::is_regular_file` (file.cpp lines 231-233):
`!(s & AM_DIR)`. -/
def is_regular_file (s : Nat) : Bool := (s &&& AM_DIR) == 0

/-- Byte-wise lexicographic comparison of character lists: the order
`std::string::operator<` induces on the stored bytes (all names here are
ASCII, where bytes and characters coincide). -/
def charListLt : List Char → List Char → Bool
  | [], [] => false
  | [], _ :: _ => true
  | _ :: _, [] => false
  | a :: as, b :: bs =>
    if a < b then true
    else if b < a then false
    else charListLt as bs

/-- `std::string` `operator<`, lexicographic on the character data. -/
def string_lt (a b : String) : Bool := charListLt a.data b.data

/-- `find_last_file_matching_pattern` (file.cpp lines 126-137).  The
directory iteration is driven by the external FatFs search, so the function
is embedded over the list of entries that search yields, in yield order; it
keeps the lexicographically greatest regular-file name (`match > last_match`
on `std::string`, starting from the empty string). -/
def find_last_file_matching_pattern (entries : List Entry) : String :=
  entries.foldl
    (fun last_match entry =>
      if is_regular_file entry.attr && string_lt last_match entry.path then
        entry.path
      else last_match)
    ""

/-- Index of the last occurrence of `c` in `s` (`std::string::find_last_of`),
`none` for `npos`. -/
def findLastOf : List Char → Char → Option Nat
  | [], _ => none
  | a :: as, c =>
    match findLastOf as c with
    | some i => some (i + 1)
    | none => if a = c then some 0 else none

/-- `remove_filename_extension` (file.cpp lines 139-142):
`substr(0, find_last_of(dot))`; when there is no dot, `substr(0, npos)`
returns the whole string. -/
def remove_filename_extension (filename : String) : String :=
  match findLastOf filename.data '.' with
  | some i => String.mk (filename.data.take i)
  | none => filename

/-- The reverse-iterator carry loop of `increment_filename_stem_ordinal`
(file.cpp lines 147-162), acting on the reversed character list:
a character below the digit zero aborts with the empty result, a digit
below nine is incremented and the loop breaks, the digit nine becomes zero
with carry into the next character, anything above nine aborts with the
empty result; running off the end returns what the carry produced. -/
def incrementRev : List Char → Option (List Char)
  | [] => some []
  | c :: rest =>
    if c < '0' then none
    else if c < '9' then some (Char.ofNat (c.toNat + 1) :: rest)
    else if c = '9' then
      match incrementRev rest with
      | some r => some ('0' :: r)
      | none => none
    else none

/-- `increment_filename_stem_ordinal` (file.cpp lines 144-165): run the
carry loop from the rightmost character; `return { }` in the C++ yields the
empty string. -/
def increment_filename_stem_ordinal (filename_stem : String) : String :=
  match incrementRev filename_stem.data.reverse with
  | some r => String.mk r.reverse
  | none => ""

/-- `next_filename_stem_matching_pattern` (file.cpp lines 167-177).
`matches` is the list of entries the external FatFs search yields for the
wildcard `filename_stem_pattern + ".*"`.  When the stem of the greatest
match is empty, every placeholder in the pattern is replaced by the digit
zero (`std::replace`); otherwise the stem's ordinal is incremented. -/
def next_filename_stem_matching_pattern (entries : List Entry)
    (filename_stem_pattern : String) : String :=
  let filename := find_last_file_matching_pattern entries
  let filename_stem := remove_filename_extension filename
  if filename_stem.isEmpty then
    String.mk (filename_stem_pattern.data.map fun c => if c = '?' then '0' else c)
  else
    increment_filename_stem_ordinal filename_stem

/-- One `FILINFO` snapshot produced by `f_findfirst`/`f_findnext`: the
driver result code and the entry name (`fname[0] == 0` in the C++ is the
empty string here). -/
structure FindResult where
  fr : Nat
  fname : String
deriving DecidableEq

/-- `directory_iterator` constructor (file.cpp lines 211-221): on a failing
`f_findfirst` the shared implementation pointer is reset, leaving the
iterator exhausted (`none`); otherwise the iterator holds the first
snapshot. -/
def directory_iterator_begin (first : FindResult) : Option FindResult :=
  if first.fr ≠ FR_OK then none else some first

/-- `directory_iterator::operator++` (file.cpp lines 223-229): the driver's
`f_findnext` outcome exhausts the iterator exactly when it fails or yields
an empty name.  An already-exhausted iterator has no implementation object
to advance (outside the C++ contract); it stays exhausted here. -/
def directory_iterator_next (s : Option FindResult) (next : FindResult) :
    Option FindResult :=
  match s with
  | none => none
  | some _ =>
    if next.fr ≠ FR_OK ∨ next.fname = "" then none else some next

/-- `std::filesystem::space_info`: capacity, free and available byte
counts. -/
structure SpaceInfo where
  capacity : Nat
  free : Nat
  available : Nat
deriving DecidableEq

/-- Driver-call outcome consumed by `space`: the `f_getfree` result code,
the free-cluster count it reports, and the mounted volume's FAT entry count
`fs->n_fatent` and cluster size `fs->csize`. -/
structure GetFreeResult where
  fr : Nat
  free_clusters : Nat
  n_fatent : Nat
  csize : Nat
deriving DecidableEq

/-- The fixed FatFs sector size `_MIN_SS` (external configuration header;
the code statically asserts `_MAX_SS == _MIN_SS`). -/
def MIN_SS : Nat := 512

/-- The modulus of the driver's 32-bit unsigned `DWORD` arithmetic:
`4294967296 = 2 ^ 32`. -/
def DWORD_MOD : Nat := 4294967296

/-- 32-bit unsigned subtraction: `a - b` computed in `DWORD` arithmetic,
wrapping modulo `2 ^ 32`. -/
def wsub (a b : Nat) : Nat :=
  (a % DWORD_MOD + (DWORD_MOD - b % DWORD_MOD)) % DWORD_MOD

/-- `std::filesystem::space` (file.cpp lines 235-251): on `f_getfree`
success, total bytes are `(fs->n_fatent - 2) * fs->csize * _MIN_SS` and
free and available bytes are both `free_clusters * fs->csize * _MIN_SS`;
on failure the snapshot is all zeros.  `n_fatent` and `free_clusters` are
`DWORD`s and the C products are evaluated in 32-bit unsigned arithmetic,
so both the subtraction and the products wrap modulo `2 ^ 32` (a single
outer reduction of the product equals the C left-to-right reduction). -/
def space (d : GetFreeResult) : SpaceInfo :=
  if d.fr = FR_OK then
    { capacity := wsub d.n_fatent 2 * d.csize * MIN_SS % DWORD_MOD
      free := d.free_clusters * d.csize * MIN_SS % DWORD_MOD
      available := d.free_clusters * d.csize * MIN_SS % DWORD_MOD }
  else
    { capacity := 0, free := 0, available := 0 }

/-! Theorems about the embedded operations. -/

/-- The carry loop turns a run of nines into a run of zeros and signals no
abort when it falls off the end of the stem. -/
theorem incrementRev_replicate_nine (n : Nat) :
    incrementRev (List.replicate n '9') = some (List.replicate n '0') := by
  induction n with
  | zero => rfl
  | succ n ih =>
    rw [List.replicate_succ, List.replicate_succ]
    simp only [incrementRev]
    rw [if_neg (by decide), if_neg (by decide), if_pos trivial, ih]

/-- An all-nines stem increments to the all-zeros stem of the same width:
the silent fixed-width wraparound of the ordinal. -/
theorem increment_all_nines (n : Nat) :
    increment_filename_stem_ordinal (String.mk (List.replicate n '9')) =
      String.mk (List.replicate n '0') := by
  unfold increment_filename_stem_ordinal
  rw [show (String.mk (List.replicate n '9')).data = List.replicate n '9' from rfl,
    List.reverse_replicate, incrementRev_replicate_nine]
  simp [List.reverse_replicate]

/-- Claim C1 (counterexample): with the FatFs search yielding only the
regular file `CAP999.BIN` for pattern `CAP???`,
`next_filename_stem_matching_pattern` returns the empty stem, not
`CAP000`: the carry stops at the non-digit `P`, which aborts the increment
with an empty result. -/
theorem C1_counterexample :
    next_filename_stem_matching_pattern [⟨"CAP999.BIN", 0x20⟩] "CAP???" = "" ∧
    next_filename_stem_matching_pattern [⟨"CAP999.BIN", 0x20⟩] "CAP???" ≠ "CAP000" :=
  ⟨rfl, by decide⟩

/-- Claim C1 (amended): the all-zeros wraparound happens only when the
carry really propagates past the leftmost character, i.e. when every stem
character is a `9` (for example only `999.BIN` present with pattern `???`
gives `000`); when the carry instead reaches a character above `9`, such as
the `P` of `CAP999`, the increment aborts and the allocator returns the
empty stem (cannot-allocate), which is what happens for `CAP999.BIN` with
pattern `CAP???`. -/
theorem C1_amended_wraparound :
    (∀ n : Nat, increment_filename_stem_ordinal (String.mk (List.replicate n '9')) =
      String.mk (List.replicate n '0')) ∧
    next_filename_stem_matching_pattern [⟨"999.BIN", 0x20⟩] "???" = "000" ∧
    next_filename_stem_matching_pattern [⟨"CAP999.BIN", 0x20⟩] "CAP???" = "" :=
  ⟨increment_all_nines, rfl, rfl⟩

/-- Claim C2: with the FatFs search yielding exactly the regular files
`CAP000.BIN`, `CAP001.BIN`, `CAP004.BIN` for pattern `CAP???`, the
allocator increments the lexicographically greatest stem and returns
`CAP005`; with no matching entry it returns the pattern with every `?`
replaced by `0`, i.e. `CAP000`. -/
theorem C2_sequential_allocator :
    next_filename_stem_matching_pattern
      [⟨"CAP000.BIN", 0x20⟩, ⟨"CAP001.BIN", 0x20⟩, ⟨"CAP004.BIN", 0x20⟩]
      "CAP???" = "CAP005" ∧
    next_filename_stem_matching_pattern [] "CAP???" = "CAP000" :=
  ⟨rfl, rfl⟩

/-- Claim C3: the constructor maps `in` to `FA_READ`, `out` to `FA_WRITE`,
`trunc` to `FA_CREATE_ALWAYS` and `ate` to `FA_OPEN_ALWAYS`; and when `ate`
is set and the open succeeds it immediately seeks to the end of file, on
seek failure closing the descriptor and leaving the seek's failure code in
the sticky error. -/
theorem C3_open_flags_and_ate_seek (mode : OpenMode) (d : File.OpenDriver) :
    (File.fatfs_mode_of mode &&& FA_READ ≠ 0 ↔ mode.is_in = true) ∧
    (File.fatfs_mode_of mode &&& FA_WRITE ≠ 0 ↔ mode.is_out = true) ∧
    (File.fatfs_mode_of mode &&& FA_CREATE_ALWAYS ≠ 0 ↔ mode.is_trunc = true) ∧
    (File.fatfs_mode_of mode &&& FA_OPEN_ALWAYS ≠ 0 ↔ mode.is_ate = true) ∧
    (mode.is_ate = true → d.open_result = FR_OK →
      (d.lseek d.size ≠ FR_OK →
        File.construct mode d = { err := d.lseek d.size, opened := false }) ∧
      (d.lseek d.size = FR_OK →
        File.construct mode d = { err := FR_OK, opened := true })) := by
  obtain ⟨i, o, t, a⟩ := mode
  refine ⟨?_, ?_, ?_, ?_, fun ha hopen => ⟨fun hseek => ?_, fun hseek => ?_⟩⟩
  · cases i <;> cases o <;> cases t <;> cases a <;> decide
  · cases i <;> cases o <;> cases t <;> cases a <;> decide
  · cases i <;> cases o <;> cases t <;> cases a <;> decide
  · cases i <;> cases o <;> cases t <;> cases a <;> decide
  · simp only at ha
    simp [File.construct, hopen, ha, hseek]
  · simp only at ha
    simp [File.construct, hopen, ha, hseek]

/-- Claim C3 witness: opening with `in` and `ate`, a succeeding open and a
seek that fails with code 9 leaves a closed descriptor and sticky error 9. -/
theorem C3_witness :
    File.construct ⟨true, false, false, true⟩ ⟨FR_OK, 100, fun _ => 9⟩ =
      { err := 9, opened := false } :=
  ((C3_open_flags_and_ate_seek ⟨true, false, false, true⟩
      ⟨FR_OK, 100, fun _ => 9⟩).2.2.2.2 rfl rfl).1 (by decide)

/-- Claim C4: seek returns zero without acting when the sticky error is
set; otherwise it returns the position held before the seek, and when the
re-read position differs from the requested one — whatever the driver
reported — the sticky error becomes `FR_BAD_SEEK` and the descriptor is
closed. -/
theorem C4_seek_contract (s : FileState) (d : File.SeekDriver) (pos : Nat) :
    (s.err ≠ FR_OK → File.seek s d pos = (s, 0)) ∧
    (s.err = FR_OK → (File.seek s d pos).2 = d.old_position) ∧
    (s.err = FR_OK → d.tell_after ≠ pos →
      (File.seek s d pos).1.err = FR_BAD_SEEK ∧
      (File.seek s d pos).1.opened = false) := by
  refine ⟨fun h => ?_, fun h => ?_, fun h hm => ?_⟩
  · simp [File.seek, h]
  · simp [File.seek, h]
  · simp [File.seek, h, hm]

/-- Claim C4 witness: with sticky error 5 the seek is a no-op returning 0;
with a clean handle it returns the old position 7, and a post-seek position
3 against a requested 4 yields `FR_BAD_SEEK` with the descriptor closed,
even though the driver reported success. -/
theorem C4_witness :
    File.seek ⟨5, true⟩ ⟨7, 0, 3⟩ 4 = (⟨5, true⟩, 0) ∧
    (File.seek ⟨0, true⟩ ⟨7, 0, 3⟩ 4).2 = 7 ∧
    ((File.seek ⟨0, true⟩ ⟨7, 0, 3⟩ 4).1.err = FR_BAD_SEEK ∧
      (File.seek ⟨0, true⟩ ⟨7, 0, 3⟩ 4).1.opened = false) :=
  ⟨(C4_seek_contract ⟨5, true⟩ ⟨7, 0, 3⟩ 4).1 (by decide),
   (C4_seek_contract ⟨0, true⟩ ⟨7, 0, 3⟩ 4).2.1 rfl,
   (C4_seek_contract ⟨0, true⟩ ⟨7, 0, 3⟩ 4).2.2 rfl (by decide)⟩

/-- Claim C5: once the sticky error is non-OK, read, write and sync each
return false and leave the state unchanged, for every possible driver
outcome — the driver outcome parameters are universally quantified, so the
result cannot depend on any driver call. -/
theorem C5_sticky_error_terminal (s : FileState) (h : s.err ≠ FR_OK) :
    (∀ rr br btr, File.read s rr br btr = (s, false)) ∧
    (∀ wr bw btw, File.write s wr bw btw = (s, false)) ∧
    (∀ sr, File.sync s sr = (s, false)) := by
  refine ⟨fun rr br btr => ?_, fun wr bw btw => ?_, fun sr => ?_⟩ <;>
    simp [File.read, File.write, File.sync, h]

/-- Claim C5 witness: a handle stuck at `FR_EOF` fails read, write and sync
with its state unchanged. -/
theorem C5_witness :
    File.read ⟨FR_EOF, true⟩ 0 4 4 = (⟨FR_EOF, true⟩, false) ∧
    File.write ⟨FR_EOF, true⟩ 0 4 4 = (⟨FR_EOF, true⟩, false) ∧
    File.sync ⟨FR_EOF, true⟩ 0 = (⟨FR_EOF, true⟩, false) :=
  ⟨(C5_sticky_error_terminal ⟨FR_EOF, true⟩ (by decide)).1 0 4 4,
   (C5_sticky_error_terminal ⟨FR_EOF, true⟩ (by decide)).2.1 0 4 4,
   (C5_sticky_error_terminal ⟨FR_EOF, true⟩ (by decide)).2.2 0⟩

/-- Claim C6: on a clean handle a short read sets the sticky error to
`FR_EOF` and a short write sets it to `FR_DISK_FULL`, and in both cases the
boolean result is true exactly when the error state is OK after the
attempt. -/
theorem C6_short_read_write (s : FileState) (h : s.err = FR_OK) :
    (∀ rr br btr, br ≠ btr → (File.read s rr br btr).1.err = FR_EOF) ∧
    (∀ rr br btr, (File.read s rr br btr).2 = true ↔
      (File.read s rr br btr).1.err = FR_OK) ∧
    (∀ wr bw btw, bw ≠ btw → (File.write s wr bw btw).1.err = FR_DISK_FULL) ∧
    (∀ wr bw btw, (File.write s wr bw btw).2 = true ↔
      (File.write s wr bw btw).1.err = FR_OK) := by
  refine ⟨fun rr br btr hm => ?_, fun rr br btr => ?_,
    fun wr bw btw hm => ?_, fun wr bw btw => ?_⟩ <;>
    simp [File.read, File.write, h, *]

/-- Claim C6 witness: reading 3 of 4 requested bytes on a clean handle ends
in `FR_EOF`, writing 3 of 4 ends in `FR_DISK_FULL`, and both report their
boolean result in agreement with the final error state. -/
theorem C6_witness :
    (File.read ⟨FR_OK, true⟩ 0 3 4).1.err = FR_EOF ∧
    ((File.read ⟨FR_OK, true⟩ 0 3 4).2 = true ↔
      (File.read ⟨FR_OK, true⟩ 0 3 4).1.err = FR_OK) ∧
    (File.write ⟨FR_OK, true⟩ 0 3 4).1.err = FR_DISK_FULL ∧
    ((File.write ⟨FR_OK, true⟩ 0 3 4).2 = true ↔
      (File.write ⟨FR_OK, true⟩ 0 3 4).1.err = FR_OK) :=
  ⟨(C6_short_read_write ⟨FR_OK, true⟩ rfl).1 0 3 4 (by decide),
   (C6_short_read_write ⟨FR_OK, true⟩ rfl).2.1 0 3 4,
   (C6_short_read_write ⟨FR_OK, true⟩ rfl).2.2.1 0 3 4 (by decide),
   (C6_short_read_write ⟨FR_OK, true⟩ rfl).2.2.2 0 3 4⟩

/-- Claim C7 (counterexample): a succeeding query over a volume with 65538
FAT entries, cluster size 128 and no free clusters — more than two FAT
entries and a positive cluster size, so the original claim demands a
positive total — makes the program compute
`65536 * 128 * 512 = 2 ^ 32` in 32-bit unsigned arithmetic, which wraps to
a total of zero: the snapshot is all zeros despite driver success. -/
theorem C7_counterexample :
    space ⟨FR_OK, 0, 65538, 128⟩ = ⟨0, 0, 0⟩ ∧
    ¬ 0 < (space ⟨FR_OK, 0, 65538, 128⟩).capacity :=
  ⟨rfl, by decide⟩

/-- Claim C7 (amended): a failing free-space query yields the all-zero
snapshot; a succeeding one yields equal free and available fields computed
as free cluster count times cluster size times sector size reduced modulo
`2 ^ 32` (the driver's 32-bit unsigned arithmetic, which silently wraps);
with zero free clusters the snapshot has free = 0; and the total is
positive whenever the cluster accounting is meaningful (more than two FAT
entries in `DWORD` range, positive cluster size) and the total-byte
product does not overflow 32 bits. -/
theorem C7_space_query (d : GetFreeResult) :
    (d.fr ≠ FR_OK → space d = ⟨0, 0, 0⟩) ∧
    (d.fr = FR_OK →
      (space d).free = (space d).available ∧
      (space d).free = d.free_clusters * d.csize * MIN_SS % DWORD_MOD) ∧
    (d.fr = FR_OK → d.free_clusters = 0 → (space d).free = 0) ∧
    (d.fr = FR_OK → 2 < d.n_fatent → d.n_fatent < DWORD_MOD → 0 < d.csize →
      (d.n_fatent - 2) * d.csize * MIN_SS < DWORD_MOD →
      0 < (space d).capacity) := by
  refine ⟨fun h => ?_, fun h => ?_, fun h h0 => ?_, fun h hn hb hc hov => ?_⟩
  · simp [space, h]
  · simp [space, h]
  · simp [space, h, h0]
  · have hb' : d.n_fatent < 4294967296 := hb
    have hn' : 2 < d.n_fatent := hn
    have hw : wsub d.n_fatent 2 = d.n_fatent - 2 := by
      unfold wsub DWORD_MOD
      omega
    have hcap : (space d).capacity =
        (d.n_fatent - 2) * d.csize * MIN_SS % DWORD_MOD := by
      simp [space, h, hw]
    rw [hcap, Nat.mod_eq_of_lt hov]
    exact Nat.mul_pos (Nat.mul_pos (by omega) hc) (by decide)

/-- Claim C7 witness: a failing query (code 1) gives the zero snapshot; a
succeeding one with 10 FAT entries, cluster size 8 and no free clusters
gives free = available = 0 and, the total product 32768 being far below
`2 ^ 32`, a positive total. -/
theorem C7_witness :
    space ⟨1, 0, 10, 8⟩ = ⟨0, 0, 0⟩ ∧
    ((space ⟨0, 0, 10, 8⟩).free = (space ⟨0, 0, 10, 8⟩).available ∧
      (space ⟨0, 0, 10, 8⟩).free = 0 * 8 * MIN_SS % DWORD_MOD) ∧
    (space ⟨0, 0, 10, 8⟩).free = 0 ∧
    0 < (space ⟨0, 0, 10, 8⟩).capacity :=
  ⟨(C7_space_query ⟨1, 0, 10, 8⟩).1 (by decide),
   (C7_space_query ⟨0, 0, 10, 8⟩).2.1 rfl,
   (C7_space_query ⟨0, 0, 10, 8⟩).2.2.1 rfl rfl,
   (C7_space_query ⟨0, 0, 10, 8⟩).2.2.2 rfl (by decide) (by decide) (by decide)
     (by decide)⟩

/-- Claim C8: a failing find-first leaves the constructed iterator
exhausted; an advance from a live iterator exhausts it exactly when the
find-next outcome is a failure or carries an empty name; and an exhausted
iterator stays exhausted under advance. -/
theorem C8_dir_iterator (first cur next : FindResult) :
    (first.fr ≠ FR_OK → directory_iterator_begin first = none) ∧
    (directory_iterator_next (some cur) next = none ↔
      next.fr ≠ FR_OK ∨ next.fname = "") ∧
    directory_iterator_next none next = none := by
  refine ⟨fun h => ?_, ?_, rfl⟩
  · simp [directory_iterator_begin, h]
  · by_cases hc : next.fr ≠ FR_OK ∨ next.fname = "" <;>
      simp [directory_iterator_next, hc]

/-- Claim C8 witness: find-first failing with code 1 gives the exhausted
iterator; from a live iterator, a find-next success carrying an empty name
exhausts it; and the exhausted iterator stays exhausted. -/
theorem C8_witness :
    directory_iterator_begin ⟨1, "A"⟩ = none ∧
    (directory_iterator_next (some ⟨0, "A"⟩) ⟨0, ""⟩ = none ↔
      (FindResult.mk 0 "").fr ≠ FR_OK ∨ (FindResult.mk 0 "").fname = "") ∧
    directory_iterator_next none ⟨0, ""⟩ = none :=
  ⟨(C8_dir_iterator ⟨1, "A"⟩ ⟨0, "A"⟩ ⟨0, ""⟩).1 (by decide),
   (C8_dir_iterator ⟨1, "A"⟩ ⟨0, "A"⟩ ⟨0, ""⟩).2.1,
   (C8_dir_iterator ⟨1, "A"⟩ ⟨0, "A"⟩ ⟨0, ""⟩).2.2⟩

/-- Claim C9: puts never gates on the prior sticky error (the state `s` is
arbitrary and the outcome below never consults `s.err`): the sticky error
becomes `FR_DISK_FULL` exactly when the primitive's result differs from the
string length, and the boolean result is false exactly for negative
primitive results. -/
theorem C9_puts_contract (s : FileState) (r : Int) (len : Nat) :
    (File.puts s r len).1.err = (if r ≠ (len : Int) then FR_DISK_FULL else s.err) ∧
    (File.puts s r len).1.opened = s.opened ∧
    ((File.puts s r len).2 = false ↔ r < 0) := by
  refine ⟨?_, ?_, ?_⟩
  · by_cases h : r = (len : Int) <;> simp [File.puts, h]
  · by_cases h : r = (len : Int) <;> simp [File.puts, h]
  · simp only [File.puts, decide_eq_false_iff_not, Int.not_le]

/-- Claim C10: a non-negative primitive result strictly below the string
length makes puts record `FR_DISK_FULL` and still return true, so — unlike
read, write and sync — a true return from puts does not imply the error
state is OK afterwards. -/
theorem C10_puts_short_write_true (s : FileState) (r : Int) (len : Nat)
    (h0 : 0 ≤ r) (h1 : r < (len : Int)) :
    (File.puts s r len).1.err = FR_DISK_FULL ∧
    (File.puts s r len).2 = true ∧ FR_DISK_FULL ≠ FR_OK := by
  have hne : r ≠ (len : Int) := by omega
  refine ⟨by simp [File.puts, hne], ?_, by decide⟩
  simp [File.puts]
  omega

/-- Claim C10 witness: a primitive result of 2 against a 5-byte string
records `FR_DISK_FULL` yet returns true. -/
theorem C10_witness :
    (File.puts ⟨FR_OK, true⟩ 2 5).1.err = FR_DISK_FULL ∧
    (File.puts ⟨FR_OK, true⟩ 2 5).2 = true ∧ FR_DISK_FULL ≠ FR_OK :=
  C10_puts_short_write_true ⟨FR_OK, true⟩ 2 5 (by decide) (by decide)

end PortaPack
